import Mathlib

/-
Verification of the push2-lightshow visual entity engine.

Shallow embedding conventions:
* Rust `f64` values are modelled exactly: quantities on which the program only
  performs field arithmetic and comparisons (ticks, durations, configuration
  parameters, colors as produced by the HSV conversion) are modelled by `ℚ`;
  quantities produced by transcendental functions (`exp`, `sin`, `sqrt`) live
  in `ℝ`, with `ℚ`-state coerced into `ℝ` at the point of use, mirroring the
  source expressions.
* Rust `u8` values are modelled by `ℕ`, with an explicit `% 256` exactly where
  the source performs wrapping `u8` arithmetic.
* `BTreeMap<K, V>` is modelled by a function `ℕ → Option V`.
* In `ℚ`, division by zero yields 0 (where `f64` would produce ±inf/NaN); no
  theorem below depends on a division whose denominator can be zero.
-/

namespace Push2

/-! ### src/entity.rs : Distance -/

inductive Distance where
  | Euclidean
  | Chebyshev
  | Manhattan
  | Rook
  | Bishop
  deriving DecidableEq

/-- `Distance::from_int`: `match i % 6 \x7b 0..=4 => the five metrics, _ => Euclidean \x7d`. -/
def Distance.from_int (i : ℕ) : Distance :=
  match i % 6 with
  | 0 => .Euclidean
  | 1 => .Chebyshev
  | 2 => .Manhattan
  | 3 => .Rook
  | 4 => .Bishop
  | _ => .Euclidean

/-- `Distance::eval`. The source casts the `u8` coordinates to `f64` before
subtracting (and to `i64` in the Bishop guard), so every difference below is a
difference of casts. -/
noncomputable def Distance.eval (d : Distance) (x0 y0 x1 y1 : ℕ) : ℝ :=
  match d with
  | .Euclidean => Real.sqrt (((x1 : ℝ) - (x0 : ℝ)) ^ 2 + ((y1 : ℝ) - (y0 : ℝ)) ^ 2)
  | .Chebyshev => max |(x1 : ℝ) - (x0 : ℝ)| |(y1 : ℝ) - (y0 : ℝ)|
  | .Manhattan => |(x1 : ℝ) - (x0 : ℝ)| + |(y1 : ℝ) - (y0 : ℝ)|
  | .Rook =>
      if x0 = x1 then |(y1 : ℝ) - (y0 : ℝ)|
      else if y0 = y1 then |(x1 : ℝ) - (x0 : ℝ)|
      else 1024
  | .Bishop =>
      if |(x1 : ℤ) - (x0 : ℤ)| = |(y1 : ℤ) - (y0 : ℤ)| then |(y1 : ℝ) - (y0 : ℝ)|
      else 1024

/-! ### src/entity.rs : Animation -/

inductive Animation where
  | Linear
  | VWave
  | Stream
  | DropTheBass
  deriving DecidableEq

/-- `pub const NUM_ANIMATIONS : u8 = 5;` (note: the enum has only four variants). -/
def NUM_ANIMATIONS : ℕ := 5

/-- `Animation::from_int`: `match i % 5 \x7b 0 => Linear, 1 => VWave, 2 => Stream,
3 => DropTheBass, _ => Linear \x7d`. -/
def Animation.from_int (i : ℕ) : Animation :=
  match i % 5 with
  | 0 => .Linear
  | 1 => .VWave
  | 2 => .Stream
  | 3 => .DropTheBass
  | _ => .Linear

/-- `Animation::should_gate`: `matches!(self, VWave | Stream | DropTheBass)`. -/
def Animation.should_gate (a : Animation) : Bool :=
  match a with
  | .VWave => true
  | .Stream => true
  | .DropTheBass => true
  | .Linear => false

/-! ### src/entity.rs : EntityConfig and Entity -/

structure EntityConfig where
  kind : ℕ        -- u8, envelope function id
  hue : ℚ
  duration : ℚ
  alpha : ℚ       -- window thickness factor
  beta : ℚ        -- distance multiplier
  distance : ℕ    -- u8, distance function id
  deriving DecidableEq

/-- Model of the external `palette` crate conversion
`Hsv::new(hue, 1.0, 0.5).into() : LinSrgb<f64>`: the standard HSV hexcone
formula with saturation 1 and value 1/2 (the crate additionally applies an
sRGB transfer decode, which is omitted here; no claim depends on the numeric
color values, only on the color being a deterministic function of the hue). -/
def hsvColor (h : ℚ) : ℚ × ℚ × ℚ :=
  let hn : ℚ := h - 360 * ⌊h / 360⌋
  let c : ℚ := 1 / 2
  let xv : ℚ := c * (1 - |hn / 60 - 2 * ⌊hn / 120⌋ - 1|)
  match (⌊hn / 60⌋).toNat with
  | 0 => (c, xv, 0)
  | 1 => (xv, c, 0)
  | 2 => (0, c, xv)
  | 3 => (0, xv, c)
  | 4 => (xv, 0, c)
  | _ => (c, 0, xv)

structure Entity where
  kind : Animation
  t0 : ℚ
  t1 : ℚ
  gated : Bool
  params : EntityConfig
  x : ℕ
  y : ℕ
  color : ℚ × ℚ × ℚ
  distance : Distance
  deriving DecidableEq

/-- `Entity::new`. -/
def Entity.new (config : EntityConfig) (t : ℚ) (x y : ℕ) : Entity :=
  { kind := Animation.from_int config.kind
    t0 := t
    t1 := t + config.duration
    params := config
    gated := (Animation.from_int config.kind).should_gate
    x := x
    y := y
    color := hsvColor config.hue
    distance := Distance.from_int config.distance }

/-- `Entity::phase`: 0 while gated, else `(t - t0) / duration`. -/
def Entity.phase (e : Entity) (t : ℚ) : ℚ :=
  if e.gated then 0 else (t - e.t0) / e.params.duration

/-- `Entity::window`: `(2.5 * x / alpha).powi(2).neg().exp()`. -/
noncomputable def Entity.window (e : Entity) (x : ℝ) : ℝ :=
  Real.exp (-(2.5 * x / (e.params.alpha : ℝ)) ^ 2)

/-- `Entity::is_dead`: `!self.gated && t >= self.t1`. -/
def Entity.is_dead (e : Entity) (t : ℚ) : Bool :=
  !e.gated && decide (e.t1 ≤ t)

/-- `Entity::release`: only acts on a gated entity, setting `t1 = t + 5.0` and
clearing `gated`. -/
def Entity.release (e : Entity) (t : ℚ) : Entity :=
  if e.gated then { e with t1 := t + 5, gated := false } else e

/-- `Entity::decay`: `1.0 - self.phase(t)`. -/
def Entity.decay (e : Entity) (t : ℚ) : ℚ :=
  1 - e.phase t

/-- Componentwise product of a stored (rational) color with a real scalar,
modelling `LinSrgb<f64> * f64`. -/
noncomputable def rgbScale (c : ℚ × ℚ × ℚ) (s : ℝ) : ℝ × ℝ × ℝ :=
  ((c.1 : ℝ) * s, (c.2.1 : ℝ) * s, (c.2.2 : ℝ) * s)

/-- Same for a color already given by real components (the literal
`Rgb::new(..)` colors of `DropTheBass`). -/
noncomputable def rgbScaleR (c : ℝ × ℝ × ℝ) (s : ℝ) : ℝ × ℝ × ℝ :=
  (c.1 * s, c.2.1 * s, c.2.2 * s)

/-- The four fixed coordinate sets of the `DropTheBass` glyph, in source order. -/
def dtbMagenta : List (ℕ × ℕ) :=
  [(0, 1), (0, 2), (1, 0), (2, 0), (3, 1), (3, 2), (1, 3), (2, 3)]

def dtbRed : List (ℕ × ℕ) :=
  [(4, 0), (4, 1), (4, 2), (4, 3), (5, 1), (5, 3), (6, 1), (6, 3), (7, 2)]

def dtbBlue : List (ℕ × ℕ) :=
  [(0, 4), (0, 5), (0, 6), (0, 7), (1, 4), (1, 7), (2, 4), (2, 7), (3, 5), (3, 6)]

def dtbCyan : List (ℕ × ℕ) :=
  [(4, 4), (4, 5), (4, 6), (4, 7), (5, 5), (5, 7), (6, 5), (6, 7), (7, 4), (7, 6)]

/-- `Entity::render`. -/
noncomputable def Entity.render (e : Entity) (t : ℚ) (x y : ℕ) : ℝ × ℝ × ℝ :=
  let distance : ℝ := e.distance.eval e.x e.y x y
  match e.kind with
  | .Linear =>
      rgbScale e.color (e.window (distance - (e.phase t : ℝ) * 12))
  | .VWave =>
      let theta : ℝ := Real.pi * (t : ℝ) * (e.params.beta : ℝ)
      let phase : ℝ := Real.pi * ((x : ℝ) - (e.x : ℝ)) / 4
      let amp : ℝ := Real.sin (theta + phase) * 4
      rgbScale e.color (e.window (amp - ((y : ℝ) - (e.y : ℝ))) * (e.decay t : ℝ))
  | .Stream =>
      let amp : ℝ := Real.sin ((t : ℝ) / (e.params.duration : ℝ) - distance * (e.params.beta : ℝ))
      if distance < 12 then rgbScale e.color (e.window amp * (e.decay t : ℝ))
      else (0, 0, 0)
  | .DropTheBass =>
      let intensity : ℝ := (e.decay t : ℝ)
      if (x, y) ∈ dtbMagenta then rgbScaleR (1, 0, 1) intensity
      else if (x, y) ∈ dtbRed then rgbScaleR (1, 0, 0) intensity
      else if (x, y) ∈ dtbBlue then rgbScaleR (0, 0, 1) intensity
      else if (x, y) ∈ dtbCyan then rgbScaleR (0, 1, 1) intensity
      else (0, 0, 0)

/-! ### src/main.rs : saturate -/

/-- `fn saturate(x: f64) -> f64 \x7b 1.0 - (-x).exp() \x7d`. -/
noncomputable def saturate (x : ℝ) : ℝ :=
  1 - Real.exp (-x)

/-! ### src/main.rs : App state and event handling

The `App` fields that only drive I/O (`conn_out`, `display`, `midi_buffer`)
are external effects and carry no state the core reads back; they are omitted.
`step` is modelled by its state effect (dead-entity eviction and the tick
advance); the per-cell accumulate/saturate/send pass writes only to the LED
sink. -/

structure AppState where
  entities : ℕ → Option Entity
  fresh_entity_id : ℕ
  tick : ℚ
  assignments : ℕ → Option EntityConfig
  active_config : ℕ
  assigning : Bool
  focused_knobs : ℕ → Bool

/-- Insertion/removal in the `BTreeMap` model. -/
def mapUpdate {α : Type} (f : ℕ → Option α) (k : ℕ) (v : Option α) : ℕ → Option α :=
  fun q => if q = k then v else f q

/-- `App::new`, parametrised by the assignments loaded from `config.yaml`. -/
def initState (assignments0 : ℕ → Option EntityConfig) : AppState :=
  { entities := fun _ => none
    fresh_entity_id := 1000
    tick := 0
    assignments := assignments0
    active_config := 0
    assigning := false
    focused_knobs := fun _ => false }

/-- The default configuration lazily inserted by `App::get_active_config`. -/
def defaultConfig : EntityConfig :=
  { kind := 0, hue := 0, duration := 15, alpha := 1, beta := 0, distance := 0 }

/-- `App::get_active_config`: returns the active pad's configuration, first
inserting the default one if the active pad has no entry. -/
def getActiveConfig (s : AppState) : EntityConfig × AppState :=
  match s.assignments s.active_config with
  | none =>
      (defaultConfig,
       { s with assignments := mapUpdate s.assignments s.active_config (some defaultConfig) })
  | some cfg => (cfg, s)

/-- The `match knob` block of `App::dispatch_knob`, acting on the configuration.
Rust guard fall-through (`3 if cw`, `9 if cw`) is rendered by matching on the
pair; `u8` arithmetic wraps, hence the explicit `% 256`. -/
def dispatchKnobCfg (knob : ℕ) (cw : Bool) (cfg : EntityConfig) : EntityConfig :=
  match knob, cw with
  | 3, true => { cfg with distance := (cfg.distance + 255) % 256 }   -- cfg.distance -= 1
  | 9, true => { cfg with distance := (cfg.distance + 1) % 256 }     -- cfg.distance += 1
  | 14, _ =>
      { cfg with kind :=
          if cw then (cfg.kind + 1) % 256 % NUM_ANIMATIONS
          else if 0 < cfg.kind then cfg.kind - 1
          else NUM_ANIMATIONS - 1 }
  | 76, _ => { cfg with alpha := if cw then cfg.alpha * 1.01 else cfg.alpha / 1.01 }
  | 77, _ => { cfg with beta := if cw then cfg.beta + 0.01 else cfg.beta - 0.01 }
  | 78, _ => { cfg with duration := if cw then cfg.duration * 1.01 else cfg.duration / 1.01 }
  | 79, _ => { cfg with hue := if cw then cfg.hue + 1 else cfg.hue - 1 }
  | _, _ => cfg                                                      -- logged only

/-- `App::dispatch_knob`: reads (and possibly lazily creates) the active
configuration, applies the knob action, and writes it back. -/
def dispatchKnob (s : AppState) (knob : ℕ) (cw : Bool) : AppState :=
  let p := getActiveConfig s
  { p.2 with
    assignments := mapUpdate p.2.assignments p.2.active_config (some (dispatchKnobCfg knob cw p.1)) }

/-- The MIDI messages distinguished by `App::handle`. -/
inductive Midi where
  | noteOn (key vel : ℕ)
  | noteOff (key vel : ℕ)
  | controller (controller value : ℕ)
  | aftertouch
  | other

/-- The guard of the knob-rotation arm of `App::handle`:
`controller == 14 || controller == 3 || controller == 9 || (72..=79)`. -/
def knobRecognized (c : ℕ) : Bool :=
  (c == 14) || (c == 3) || (c == 9) || (decide (72 ≤ c) && decide (c ≤ 79))

/-- The pad-activation arm of `App::handle` (`NoteOn` with `36 <= key <= 99`). -/
def padPress (s : AppState) (key : ℕ) : AppState :=
  let i := key - 36
  let x := i % 8
  let y := i / 8
  let p := getActiveConfig s
  let prev := p.1
  let s1 := p.2
  let s2 :=
    if (s1.assignments i).isNone || s1.assigning then
      { s1 with assignments := mapUpdate s1.assignments i (some prev) }
    else s1
  let s3 := { s2 with active_config := i }
  let q := getActiveConfig s3
  let e := Entity.new q.1 q.2.tick x y
  if e.gated then
    { q.2 with entities := mapUpdate q.2.entities i (some e) }
  else
    { q.2 with
      fresh_entity_id := q.2.fresh_entity_id + 1
      entities := mapUpdate q.2.entities (q.2.fresh_entity_id + 1) (some e) }

/-- `App::handle`. -/
def handle (s : AppState) (m : Midi) : AppState :=
  match m with
  | .controller c v =>
      if knobRecognized c then dispatchKnob s c (v != 127)
      else if c = 86 then { s with assigning := (v == 127) }
      else s
  | .noteOn key vel =>
      if key ≤ 10 then
        { s with focused_knobs := fun q => if q = key then (vel == 127) else s.focused_knobs q }
      else if 36 ≤ key ∧ key ≤ 99 then padPress s key
      else s
  | .noteOff key _ =>
      if 36 ≤ key ∧ key ≤ 99 then
        match s.entities (key - 36) with
        | some e =>
            { s with entities := mapUpdate s.entities (key - 36) (some (e.release s.tick)) }
        | none => s
      else s
  | .aftertouch => s
  | .other => s

/-- The state effect of `App::step`: evict entities with `is_dead(tick)` and
advance the tick by 1. -/
def step (s : AppState) : AppState :=
  { s with
    entities := fun k =>
      match s.entities k with
      | some e => if e.is_dead s.tick then none else some e
      | none => none
    tick := s.tick + 1 }

/-- One iteration item of the main loop: either a drained queued message or
the per-frame `step`. -/
inductive Act where
  | msg (m : Midi)
  | tick

def applyAct (s : AppState) (a : Act) : AppState :=
  match a with
  | .msg m => handle s m
  | .tick => step s

/-- A run of the main loop from a state through a sequence of handled events
and frame steps. -/
def runActs (s : AppState) (acts : List Act) : AppState :=
  acts.foldl applyAct s

/-! ### Definitions written from the spec's words, for comparison -/

/-- Modelled from the spec (§4.3 Cross/Zap, absent from the source): if the
target shares the origin's row, `window(|Δx| - phase(t)*8, thickness) * color`;
if it shares the column, the symmetric form in `Δy`; otherwise zero. -/
noncomputable def crossZapSpec (e : Entity) (t : ℚ) (x y : ℕ) : ℝ × ℝ × ℝ :=
  if y = e.y then rgbScale e.color (e.window (|(x : ℝ) - (e.x : ℝ)| - (e.phase t : ℝ) * 8))
  else if x = e.x then rgbScale e.color (e.window (|(y : ℝ) - (e.y : ℝ)| - (e.phase t : ℝ) * 8))
  else (0, 0, 0)

/-- Modelled from the spec's words (C5): distance selection by
`variantIndex mod 5` into the ordered five-metric list, for comparison with
`Distance.from_int`. -/
def distanceSpecMod5 (i : ℕ) : Distance :=
  [Distance.Euclidean, Distance.Chebyshev, Distance.Manhattan, Distance.Rook,
    Distance.Bishop].getD (i % 5) Distance.Euclidean

/-! ### Claim C3 : saturate -/

/-- C3 counterexample: the claim asserts `saturate x ∈ [0, 1)` for every finite
real `x`, but at the finite input `x = -1` the value `1 - exp 1` is negative. -/
theorem saturate_neg_cex : saturate (-1) < 0 := by
  have h := Real.add_one_lt_exp (x := 1) (by norm_num)
  unfold saturate
  rw [neg_neg]
  linarith

/-- C3 (amended): for every `x ≥ 0`, `saturate x = 1 - exp (-x)` lies in
`[0, 1)`, and `saturate 0 = 0`. -/
theorem saturate_range :
    (∀ x : ℝ, 0 ≤ x → 0 ≤ saturate x ∧ saturate x < 1) ∧ saturate 0 = 0 := by
  constructor
  · intro x hx
    unfold saturate
    constructor
    · have h1 : Real.exp (-x) ≤ 1 := by
        rw [show (1 : ℝ) = Real.exp 0 from (Real.exp_zero).symm]
        exact Real.exp_le_exp.mpr (by linarith)
      linarith
    · have h2 : 0 < Real.exp (-x) := Real.exp_pos _
      linarith
  · unfold saturate
    rw [neg_zero, Real.exp_zero]
    ring

/-- Witness for `saturate_range` at the concrete input 0. -/
theorem saturate_range_witness : (0 : ℝ) ≤ 0 ∧ (0 ≤ saturate 0 ∧ saturate 0 < 1) :=
  ⟨le_refl 0, saturate_range.1 0 (le_refl 0)⟩

/-! ### Claim C5 : distance selection -/

/-- C5 counterexample: at selector 6 the code resolves `6 % 6 = 0`, i.e.
Euclidean, while resolution "by variantIndex mod 5" would give the entry at
`6 % 5 = 1`, i.e. Chebyshev. -/
theorem distance_mod5_cex :
    Distance.from_int 6 = Distance.Euclidean ∧ distanceSpecMod5 6 = Distance.Chebyshev ∧
      Distance.from_int 6 ≠ distanceSpecMod5 6 := by decide

/-- C5 (amended): selection resolves the selector by `mod 6`; residues 0–4 give
Euclidean, Chebyshev, Manhattan, Rook, Bishop in order, and the one extra
residue 5 of the 6-way modulus aliases to Euclidean (the default of `getD`). -/
theorem distance_from_int_mod6 (i : ℕ) :
    Distance.from_int i
      = [Distance.Euclidean, Distance.Chebyshev, Distance.Manhattan, Distance.Rook,
          Distance.Bishop].getD (i % 6) Distance.Euclidean := by
  rcases (by omega : i % 6 = 0 ∨ i % 6 = 1 ∨ i % 6 = 2 ∨ i % 6 = 3 ∨ i % 6 = 4 ∨ i % 6 = 5) with
    h | h | h | h | h | h <;> simp [Distance.from_int, h]

/-! ### Claim C6 : Rook and Bishop distances -/

/-- C6: Rook distance is the absolute delta along a shared row or column and
the sentinel 1024 otherwise; Bishop distance is the absolute delta along a
shared diagonal and 1024 otherwise; with the claim's four concrete instances. -/
theorem rook_bishop_spec :
    (∀ x0 y0 x1 y1 : ℕ,
        Distance.eval .Rook x0 y0 x1 y1
            = (if x0 = x1 then |(y1 : ℝ) - (y0 : ℝ)|
               else if y0 = y1 then |(x1 : ℝ) - (x0 : ℝ)| else 1024)
          ∧ Distance.eval .Bishop x0 y0 x1 y1
            = (if |(x1 : ℤ) - (x0 : ℤ)| = |(y1 : ℤ) - (y0 : ℤ)|
               then |(y1 : ℝ) - (y0 : ℝ)| else 1024))
    ∧ Distance.eval .Rook 2 3 2 7 = 4
    ∧ Distance.eval .Rook 2 3 5 1 = 1024
    ∧ Distance.eval .Bishop 1 1 4 4 = 3
    ∧ Distance.eval .Bishop 1 1 4 5 = 1024 := by
  refine ⟨fun x0 y0 x1 y1 => ⟨rfl, rfl⟩, ?_, ?_, ?_, ?_⟩ <;>
    · simp only [Distance.eval]
      norm_num

/-! ### Claim C8 : release is idempotent -/

/-- C8: releasing twice yields the same entity as releasing once, and release
of an already non-gated entity changes nothing. -/
theorem release_idempotent (e : Entity) (t t2 : ℚ) :
    (e.release t).release t2 = e.release t ∧ (e.gated = false → e.release t = e) := by
  cases hg : e.gated
  · simp [Entity.release, hg]
  · simp [Entity.release, hg]

/-- Witness for `release_idempotent` on the non-gated entity spawned by the
default configuration. -/
theorem release_idempotent_witness :
    ((Entity.new defaultConfig 0 0 0).release 1).release 2
        = (Entity.new defaultConfig 0 0 0).release 1
      ∧ (Entity.new defaultConfig 0 0 0).gated = false
      ∧ (Entity.new defaultConfig 0 0 0).release 1 = Entity.new defaultConfig 0 0 0 :=
  ⟨(release_idempotent (Entity.new defaultConfig 0 0 0) 1 2).1, by decide,
    (release_idempotent (Entity.new defaultConfig 0 0 0) 1 2).2 (by decide)⟩

/-! ### Claim C10 : knob-3 distance decrement -/

/-- C10: the knob-3 clockwise action is the unguarded wrapping `u8` subtraction
`cfg.distance - 1`: it equals the true decrement exactly under the precondition
`distance > 0`, and at `distance = 0` it underflows (wraps to 255) — there is
no guard in the dispatch path. -/
theorem knob3_decrement_underflow (cfg : EntityConfig) :
    (0 < cfg.distance → cfg.distance ≤ 255 →
        (dispatchKnobCfg 3 true cfg).distance = cfg.distance - 1)
      ∧ (cfg.distance = 0 → (dispatchKnobCfg 3 true cfg).distance = 255) := by
  constructor
  · intro h1 h2
    show (cfg.distance + 255) % 256 = cfg.distance - 1
    omega
  · intro h0
    show (cfg.distance + 255) % 256 = 255
    omega

/-- Witness for `knob3_decrement_underflow` at distance 1 and at distance 0. -/
theorem knob3_decrement_underflow_witness :
    ((0 : ℕ) < 1 ∧ (1 : ℕ) ≤ 255
        ∧ (dispatchKnobCfg 3 true { defaultConfig with distance := 1 }).distance = 0)
      ∧ (dispatchKnobCfg 3 true defaultConfig).distance = 255 :=
  ⟨⟨by decide, by decide,
      (knob3_decrement_underflow { defaultConfig with distance := 1 }).1 (by decide) (by decide)⟩,
    (knob3_decrement_underflow defaultConfig).2 rfl⟩

/-! ### Claim C7 : knob dispatch table -/

/-- C7 counterexample: knob 72 (in the recognized controller range 72–79) and
the counter-clockwise direction of knob 3 are recognized knob turns after which
every configuration field keeps its prior value — no field changes. -/
theorem knob_noop_cex :
    knobRecognized 72 = true ∧ dispatchKnobCfg 72 true defaultConfig = defaultConfig ∧
      knobRecognized 3 = true ∧ dispatchKnobCfg 3 false defaultConfig = defaultConfig := by
  decide

/-- C7 (amended): the dispatch table. Knob 3 clockwise decrements the distance
selector (wrapping `u8`), knob 9 clockwise increments it, their
counter-clockwise turns do nothing; knob 14 advances/retreats the animation
selector modulo `NUM_ANIMATIONS`, wrapping at both ends; knobs 76/78 scale
thickness/duration by 1.01, knob 77 steps rate by 0.01, knob 79 steps hue by
1.0; recognized knobs 72–75 change nothing. In each acting case exactly the
designated field is updated and every other field keeps its prior value; the
result is written back to the active pad's table entry. -/
theorem dispatch_knob_table (cfg : EntityConfig) :
    dispatchKnobCfg 3 true cfg = { cfg with distance := (cfg.distance + 255) % 256 }
  ∧ dispatchKnobCfg 9 true cfg = { cfg with distance := (cfg.distance + 1) % 256 }
  ∧ dispatchKnobCfg 3 false cfg = cfg
  ∧ dispatchKnobCfg 9 false cfg = cfg
  ∧ dispatchKnobCfg 14 true cfg = { cfg with kind := (cfg.kind + 1) % 256 % NUM_ANIMATIONS }
  ∧ dispatchKnobCfg 14 false cfg
      = { cfg with kind := if 0 < cfg.kind then cfg.kind - 1 else NUM_ANIMATIONS - 1 }
  ∧ dispatchKnobCfg 76 true cfg = { cfg with alpha := cfg.alpha * 1.01 }
  ∧ dispatchKnobCfg 76 false cfg = { cfg with alpha := cfg.alpha / 1.01 }
  ∧ dispatchKnobCfg 77 true cfg = { cfg with beta := cfg.beta + 0.01 }
  ∧ dispatchKnobCfg 77 false cfg = { cfg with beta := cfg.beta - 0.01 }
  ∧ dispatchKnobCfg 78 true cfg = { cfg with duration := cfg.duration * 1.01 }
  ∧ dispatchKnobCfg 78 false cfg = { cfg with duration := cfg.duration / 1.01 }
  ∧ dispatchKnobCfg 79 true cfg = { cfg with hue := cfg.hue + 1 }
  ∧ dispatchKnobCfg 79 false cfg = { cfg with hue := cfg.hue - 1 }
  ∧ (∀ b : Bool, dispatchKnobCfg 72 b cfg = cfg ∧ dispatchKnobCfg 73 b cfg = cfg
      ∧ dispatchKnobCfg 74 b cfg = cfg ∧ dispatchKnobCfg 75 b cfg = cfg)
  ∧ (∀ (s : AppState) (knob : ℕ) (cw : Bool),
      (dispatchKnob s knob cw).assignments s.active_config
          = some (dispatchKnobCfg knob cw (getActiveConfig s).1)
        ∧ (dispatchKnob s knob cw).entities = s.entities) := by
  refine ⟨rfl, rfl, rfl, rfl, rfl, rfl, rfl, rfl, rfl, rfl, rfl, rfl, rfl, rfl, ?_, ?_⟩
  · intro b
    cases b <;> exact ⟨rfl, rfl, rfl, rfl⟩
  · intro s knob cw
    constructor
    · show mapUpdate (getActiveConfig s).2.assignments (getActiveConfig s).2.active_config
          (some (dispatchKnobCfg knob cw (getActiveConfig s).1)) s.active_config
        = some (dispatchKnobCfg knob cw (getActiveConfig s).1)
      unfold getActiveConfig mapUpdate
      cases h : s.assignments s.active_config <;> simp [h]
    · show (getActiveConfig s).2.entities = s.entities
      unfold getActiveConfig
      cases h : s.assignments s.active_config <;> simp [h]

/-! ### Claim C1 : is_dead lifecycle -/

/-- A momentary configuration with a negative duration, for the C1
counterexample (the `duration` field is nowhere constrained to be
non-negative). -/
def negDurConfig : EntityConfig :=
  { kind := 0, hue := 0, duration := -1, alpha := 1, beta := 0, distance := 0 }

/-- C1 counterexample: a momentary entity (gated false from spawn,
`t1 = t0 + duration`) spawned at tick 10 with duration −1 is already dead at
tick 9.5, which is strictly before its spawn tick `t0 = 10` — so `isDead` is
not false for every `t < t0`. -/
theorem dead_before_spawn_cex :
    (Entity.new negDurConfig 10 0 0).gated = false
      ∧ (Entity.new negDurConfig 10 0 0).t1 = 10 + negDurConfig.duration
      ∧ ((19 : ℚ) / 2) < (Entity.new negDurConfig 10 0 0).t0
      ∧ (Entity.new negDurConfig 10 0 0).is_dead (19 / 2) = true := by
  have hg : (Entity.new negDurConfig 10 0 0).gated = false := by decide
  refine ⟨hg, rfl, by norm_num [Entity.new], ?_⟩
  simp only [Entity.is_dead, hg, Bool.not_false, Bool.true_and, decide_eq_true_eq]
  show (10 : ℚ) + negDurConfig.duration ≤ 19 / 2
  norm_num [negDurConfig]

/-- C1 (amended): `is_dead e t` holds iff `e` is not gated and `t ≥ e.t1`.
A momentary entity spawned by `Entity.new` (gated false, `t1 = t0 + duration`)
is dead exactly for `t ≥ t1`; provided `duration ≥ 0` it is in particular
never dead before its spawn tick `t0`. A sustain entity (gated true) is never
dead until released; after `release tr` it is dead exactly for `t ≥ tr + 5`. -/
theorem is_dead_lifecycle :
    (∀ (e : Entity) (t : ℚ), e.is_dead t = true ↔ (e.gated = false ∧ e.t1 ≤ t))
    ∧ (∀ (cfg : EntityConfig) (t0 : ℚ) (px py : ℕ),
        (Animation.from_int cfg.kind).should_gate = false →
          (∀ t : ℚ, (Entity.new cfg t0 px py).is_dead t = false ↔ t < t0 + cfg.duration)
          ∧ (0 ≤ cfg.duration → ∀ t : ℚ, t < t0 →
              (Entity.new cfg t0 px py).is_dead t = false))
    ∧ (∀ (cfg : EntityConfig) (t0 : ℚ) (px py : ℕ),
        (Animation.from_int cfg.kind).should_gate = true →
          (∀ t : ℚ, (Entity.new cfg t0 px py).is_dead t = false)
          ∧ (∀ tr t : ℚ,
              ((Entity.new cfg t0 px py).release tr).is_dead t = true ↔ tr + 5 ≤ t)) := by
  refine ⟨?_, ?_, ?_⟩
  · intro e t
    simp [Entity.is_dead]
  · intro cfg t0 px py hg
    constructor
    · intro t
      simp [Entity.is_dead, Entity.new, hg]
    · intro hd t ht
      simp [Entity.is_dead, Entity.new, hg]
      linarith
  · intro cfg t0 px py hg
    constructor
    · intro t
      simp [Entity.is_dead, Entity.new, hg]
    · intro tr t
      simp [Entity.release, Entity.new, Entity.is_dead, hg]

/-- Witness for `is_dead_lifecycle`: the default (Linear, momentary)
configuration spawned at tick 10 is alive at tick 3; the VWave (sustain)
configuration spawned at tick 0 and released at tick 7 is dead at tick 12. -/
theorem is_dead_lifecycle_witness :
    ((Animation.from_int defaultConfig.kind).should_gate = false
        ∧ (Entity.new defaultConfig 10 0 0).is_dead 3 = false)
      ∧ ((Animation.from_int ({ defaultConfig with kind := 1 } : EntityConfig).kind).should_gate
            = true
        ∧ ((Entity.new { defaultConfig with kind := 1 } 0 0 0).release 7).is_dead 12 = true) :=
  ⟨⟨by decide,
      ((is_dead_lifecycle.2.1 defaultConfig 10 0 0 (by decide)).1 3).mpr
        (by norm_num [defaultConfig])⟩,
    ⟨by decide,
      ((is_dead_lifecycle.2.2 { defaultConfig with kind := 1 } 0 0 0 (by decide)).2 7 12).mpr
        (by norm_num)⟩⟩

/-! ### Claim C2 : the Cross/Zap variant -/

/-- A concrete momentary Linear entity used in the C2 counterexample. -/
def linearEnt : Entity :=
  { kind := .Linear, t0 := 0, t1 := 1, gated := false,
    params := { kind := 0, hue := 0, duration := 1, alpha := 1, beta := 0, distance := 0 },
    x := 0, y := 0, color := (1, 0, 0), distance := .Euclidean }

/-- C2 counterexample: the animation catalog contains no momentary variant
whose render is the spec's Cross/Zap formula. The three gated variants fail
the momentary tag, and the only momentary variant, Linear, disagrees with the
formula at the concrete entity `linearEnt`, tick 1/2, target cell (1, 0):
Linear yields `exp(-156.25) * color` there while the Cross/Zap formula yields
`exp(-56.25) * color`. -/
theorem no_cross_zap_cex :
    ¬ ∃ a : Animation, a.should_gate = false ∧
        ∀ (e : Entity), e.kind = a → ∀ (t : ℚ) (x y : ℕ),
          e.render t x y = crossZapSpec e t x y := by
  rintro ⟨a, hg, hall⟩
  cases a with
  | VWave => exact absurd hg (by decide)
  | Stream => exact absurd hg (by decide)
  | DropTheBass => exact absurd hg (by decide)
  | Linear =>
    have h := congrArg Prod.fst (hall linearEnt rfl (1 / 2) 1 0)
    have hd : Distance.eval Distance.Euclidean 0 0 1 0 = 1 := by
      simp only [Distance.eval]
      norm_num
    simp only [Entity.render, crossZapSpec, linearEnt, rgbScale, Entity.window,
      Entity.phase] at h
    norm_num [hd] at h

/-- C2 (amended): the animation catalog contains exactly the four variants
Linear, VWave, Stream, DropTheBass — there is no Cross/Zap variant; the
selector resolves modulo 5 with the spare residue 4 aliased to Linear, and the
only momentary (non-gated) variant is Linear. -/
theorem animation_catalog_no_cross :
    (∀ i : ℕ, Animation.from_int i
        = [Animation.Linear, Animation.VWave, Animation.Stream, Animation.DropTheBass,
            Animation.Linear].getD (i % 5) Animation.Linear)
      ∧ Animation.should_gate .Linear = false
      ∧ Animation.should_gate .VWave = true
      ∧ Animation.should_gate .Stream = true
      ∧ Animation.should_gate .DropTheBass = true := by
  refine ⟨fun i => ?_, rfl, rfl, rfl, rfl⟩
  rcases (by omega : i % 5 = 0 ∨ i % 5 = 1 ∨ i % 5 = 2 ∨ i % 5 = 3 ∨ i % 5 = 4) with
    h | h | h | h | h <;> simp [Animation.from_int, h]

/-! ### Claim C9 : entity-key invariant -/

/-- The inductive invariant: the fresh-id counter never drops below 1000;
an entity whose resolved animation is momentary sits at a key above 1000, and
a (currently) gated entity sits at its pad index. -/
def EntInv (s : AppState) : Prop :=
  1000 ≤ s.fresh_entity_id ∧
    ∀ k e, s.entities k = some e →
      (e.kind.should_gate = false → 1000 < k)
        ∧ (e.gated = true → k ≤ 63 ∧ k = 8 * e.y + e.x)

lemma mapUpdate_same {α : Type} (f : ℕ → Option α) (k : ℕ) (v : Option α) :
    mapUpdate f k v k = v := by
  simp [mapUpdate]

lemma mapUpdate_other {α : Type} (f : ℕ → Option α) (k : ℕ) (v : Option α) (q : ℕ)
    (h : q ≠ k) : mapUpdate f k v q = f q := by
  simp [mapUpdate, h]

lemma getActive_fields (s : AppState) :
    (getActiveConfig s).2.entities = s.entities
      ∧ (getActiveConfig s).2.fresh_entity_id = s.fresh_entity_id
      ∧ (getActiveConfig s).2.tick = s.tick
      ∧ (getActiveConfig s).2.active_config = s.active_config
      ∧ (getActiveConfig s).2.assigning = s.assigning := by
  unfold getActiveConfig
  cases h : s.assignments s.active_config <;> simp [h]

lemma entInv_of_fields (s1 s2 : AppState) (h1 : s2.entities = s1.entities)
    (h2 : s2.fresh_entity_id = s1.fresh_entity_id) (hinv : EntInv s1) : EntInv s2 := by
  refine ⟨by rw [h2]; exact hinv.1, fun k e hk => hinv.2 k e (by rw [← h1]; exact hk)⟩

lemma release_kind (e : Entity) (t : ℚ) : (e.release t).kind = e.kind := by
  unfold Entity.release
  split <;> rfl

lemma release_gated (e : Entity) (t : ℚ) : (e.release t).gated = false := by
  unfold Entity.release
  split
  · rfl
  · rename_i h
    simp only [Bool.not_eq_true] at h
    exact h

lemma entInv_spawn (sb : AppState) (cfg : EntityConfig) (i : ℕ) (hb : EntInv sb)
    (hi : i ≤ 63) :
    EntInv
      (if (Entity.new cfg sb.tick (i % 8) (i / 8)).gated then
        { sb with
          entities := mapUpdate sb.entities i (some (Entity.new cfg sb.tick (i % 8) (i / 8))) }
      else
        { sb with
          fresh_entity_id := sb.fresh_entity_id + 1
          entities := mapUpdate sb.entities (sb.fresh_entity_id + 1)
            (some (Entity.new cfg sb.tick (i % 8) (i / 8))) }) := by
  have hsg : (Entity.new cfg sb.tick (i % 8) (i / 8)).kind.should_gate
      = (Entity.new cfg sb.tick (i % 8) (i / 8)).gated := rfl
  have hx : (Entity.new cfg sb.tick (i % 8) (i / 8)).x = i % 8 := rfl
  have hy : (Entity.new cfg sb.tick (i % 8) (i / 8)).y = i / 8 := rfl
  have hfr := hb.1
  split
  case isTrue hg =>
    refine ⟨hfr, fun k en hk => ?_⟩
    simp only [mapUpdate] at hk
    by_cases hki : k = i
    · rw [if_pos hki] at hk
      have hen := (Option.some.inj hk).symm
      subst hen
      constructor
      · intro hf
        rw [hsg, hg] at hf
        cases hf
      · intro _
        refine ⟨by omega, ?_⟩
        rw [hx, hy]
        omega
    · rw [if_neg hki] at hk
      exact hb.2 k en hk
  case isFalse hg =>
    refine ⟨by show 1000 ≤ sb.fresh_entity_id + 1; omega, fun k en hk => ?_⟩
    simp only [mapUpdate] at hk
    by_cases hkf : k = sb.fresh_entity_id + 1
    · rw [if_pos hkf] at hk
      have hen := (Option.some.inj hk).symm
      subst hen
      constructor
      · intro _
        omega
      · intro hgt
        exact absurd hgt hg
    · rw [if_neg hkf] at hk
      exact hb.2 k en hk

lemma entInv_padPress (s : AppState) (key : ℕ) (h99 : key ≤ 99) (hinv : EntInv s) :
    EntInv (padPress s key) := by
  refine entInv_spawn _ _ (key - 36) ?_ (by omega)
  refine entInv_of_fields s _ ?_ ?_ hinv
  · rw [(getActive_fields _).1]
    split
    · exact (getActive_fields s).1
    · exact (getActive_fields s).1
  · rw [(getActive_fields _).2.1]
    split
    · exact (getActive_fields s).2.1
    · exact (getActive_fields s).2.1

lemma entInv_handle (s : AppState) (m : Midi) (hinv : EntInv s) : EntInv (handle s m) := by
  cases m with
  | controller c v =>
      simp only [handle]
      split
      · refine entInv_of_fields s _ ?_ ?_ hinv
        · exact (getActive_fields s).1
        · exact (getActive_fields s).2.1
      · split
        · exact entInv_of_fields s _ rfl rfl hinv
        · exact hinv
  | noteOn key vel =>
      simp only [handle]
      split
      · exact entInv_of_fields s _ rfl rfl hinv
      · split
        · rename_i h369
          exact entInv_padPress s key h369.2 hinv
        · exact hinv
  | noteOff key vel =>
      simp only [handle]
      split
      · rename_i h369
        split
        · rename_i e he
          refine ⟨hinv.1, fun k en hk => ?_⟩
          simp only [mapUpdate] at hk
          by_cases hki : k = key - 36
          · rw [if_pos hki] at hk
            have hen := (Option.some.inj hk).symm
            subst hen
            have hold := hinv.2 (key - 36) e he
            have hsg : e.kind.should_gate = true := by
              cases hsgc : e.kind.should_gate
              · exact absurd (hold.1 hsgc) (by omega)
              · rfl
            constructor
            · intro hf
              rw [release_kind, hsg] at hf
              cases hf
            · intro hgt
              rw [release_gated] at hgt
              cases hgt
          · rw [if_neg hki] at hk
            exact hinv.2 k en hk
        · exact hinv
      · exact hinv
  | aftertouch => exact hinv
  | other => exact hinv

lemma entInv_step (s : AppState) (hinv : EntInv s) : EntInv (step s) := by
  refine ⟨hinv.1, fun k e hk => ?_⟩
  simp only [step] at hk
  split at hk
  · rename_i e0 he0
    split at hk
    · cases hk
    · exact hinv.2 k e ((Option.some.inj hk) ▸ he0)
  · cases hk

lemma entInv_runActs (acts : List Act) : ∀ s : AppState, EntInv s → EntInv (runActs s acts) := by
  induction acts with
  | nil => exact fun _ h => h
  | cons a rest ih =>
      intro s h
      refine ih (applyAct s a) ?_
      cases a with
      | msg m => exact entInv_handle s m h
      | tick => exact entInv_step s h

lemma entInv_init (cfg0 : ℕ → Option EntityConfig) : EntInv (initState cfg0) := by
  refine ⟨Nat.le_refl 1000, fun k e hk => ?_⟩
  simp [initState] at hk

/-- C9: in every App state reachable from the initial state (fresh counter
1000, no entities) by any sequence of handled messages and frame steps, a
momentary entity (one whose resolved animation is not gated) sits under a key
strictly greater than 1000 while a gated entity sits under its pad index
(at most 63, equal to `8*y + x`); consequently any key at most 63 — in
particular the key a pad-release looks up — never holds a momentary entity. -/
theorem reachable_key_invariant (cfg0 : ℕ → Option EntityConfig) (acts : List Act) (k : ℕ)
    (e : Entity) (hk : (runActs (initState cfg0) acts).entities k = some e) :
    (e.kind.should_gate = false → 1000 < k)
      ∧ (e.gated = true → k ≤ 63 ∧ k = 8 * e.y + e.x)
      ∧ (k ≤ 63 → e.kind.should_gate = true) := by
  have hinv := entInv_runActs acts (initState cfg0) (entInv_init cfg0)
  have h := hinv.2 k e hk
  refine ⟨h.1, h.2, fun h63 => ?_⟩
  cases hsg : e.kind.should_gate
  · exact absurd (h.1 hsg) (by omega)
  · rfl

/-- Witness for `reachable_key_invariant`: pressing pad 0 once from the empty
initial state stores the momentary default entity at key 1001 > 1000. -/
theorem reachable_key_invariant_witness :
    (runActs (initState (fun _ => none)) [Act.msg (Midi.noteOn 36 100)]).entities 1001
        = some (Entity.new defaultConfig 0 0 0)
      ∧ 1000 < 1001 :=
  ⟨rfl,
    (reachable_key_invariant (fun _ => none) [Act.msg (Midi.noteOn 36 100)] 1001
        (Entity.new defaultConfig 0 0 0) rfl).1 (by decide)⟩

/-! ### Claim C4 : pad press on an unassigned pad -/

/-- C4 counterexample: from the empty initial state, one clockwise turn of the
hue knob (79) edits the active pad 0 to hue 1; pressing the unassigned pad 5
(key 41) then writes that active configuration — hue 1 — into pad 5's table
entry, not the default configuration (hue 0). -/
theorem pad_press_default_cex :
    (runActs (initState (fun _ => none)) [Act.msg (Midi.controller 79 0)]).assignments 5 = none
      ∧ (runActs (initState (fun _ => none))
            [Act.msg (Midi.controller 79 0), Act.msg (Midi.noteOn 41 100)]).assignments 5
          = some (dispatchKnobCfg 79 true defaultConfig)
      ∧ (dispatchKnobCfg 79 true defaultConfig).hue = 1
      ∧ defaultConfig.hue = 0
      ∧ some (dispatchKnobCfg 79 true defaultConfig) ≠ some defaultConfig := by
  refine ⟨rfl, rfl, ?_, rfl, ?_⟩
  · show defaultConfig.hue + 1 = 1
    norm_num [defaultConfig]
  · intro h
    have h2 := congrArg EntityConfig.hue (Option.some.inj h)
    rw [show (dispatchKnobCfg 79 true defaultConfig).hue = defaultConfig.hue + 1 from rfl] at h2
    norm_num [defaultConfig] at h2

/-- C4 (amended): a pad press (key 36–99, pad `i = key - 36`) on a pad with no
parameter-table entry writes the currently active configuration
`(getActiveConfig s).1` (which is the default configuration exactly when the
active pad itself has no entry) into pad `i`'s table entry, makes `i` the
active pad, and inserts the entity built from that entry at the derived cell
`x = i % 8`, `y = i / 8` — keyed by `i` when gated, else by the fresh id. -/
theorem pad_press_unassigned (s : AppState) (key vel : ℕ) (h36 : 36 ≤ key) (h99 : key ≤ 99)
    (hnone : s.assignments (key - 36) = none) :
    (handle s (Midi.noteOn key vel)).assignments (key - 36) = some (getActiveConfig s).1
      ∧ (handle s (Midi.noteOn key vel)).active_config = key - 36
      ∧ ((Entity.new (getActiveConfig s).1 s.tick ((key - 36) % 8) ((key - 36) / 8)).gated
            = true →
          (handle s (Midi.noteOn key vel)).entities (key - 36)
            = some (Entity.new (getActiveConfig s).1 s.tick ((key - 36) % 8) ((key - 36) / 8)))
      ∧ ((Entity.new (getActiveConfig s).1 s.tick ((key - 36) % 8) ((key - 36) / 8)).gated
            = false →
          (handle s (Midi.noteOn key vel)).entities (s.fresh_entity_id + 1)
            = some (Entity.new (getActiveConfig s).1 s.tick ((key - 36) % 8) ((key - 36) / 8))) := by
  have hh : handle s (Midi.noteOn key vel) = padPress s key := by
    simp only [handle]
    rw [if_neg (by omega : ¬ key ≤ 10), if_pos ⟨h36, h99⟩]
  rw [hh]
  rcases ha : s.assignments s.active_config with _ | cfg0
  · by_cases hai : (key - 36) = s.active_config
    · by_cases hassign : s.assigning = true
      · simp only [padPress, getActiveConfig, ha, hai, hassign, mapUpdate_same,
          Option.isNone_some, Bool.false_or, if_true]
        refine ⟨?_, ?_, fun hg => ?_, fun hg => ?_⟩
        · split <;> exact mapUpdate_same _ _ _
        · split <;> rfl
        · rw [if_pos hg]
          exact mapUpdate_same _ _ _
        · rw [if_neg (by simp [hg])]
          exact mapUpdate_same _ _ _
      · rw [Bool.not_eq_true] at hassign
        simp only [padPress, getActiveConfig, ha, hai, hassign, mapUpdate_same,
          Option.isNone_some, Bool.false_or, Bool.false_eq_true, if_false]
        refine ⟨?_, ?_, fun hg => ?_, fun hg => ?_⟩
        · split <;> exact mapUpdate_same _ _ _
        · split <;> rfl
        · rw [if_pos hg]
          exact mapUpdate_same _ _ _
        · rw [if_neg (by simp [hg])]
          exact mapUpdate_same _ _ _
    · simp only [padPress, getActiveConfig, ha, mapUpdate_other _ _ _ _ hai, hnone,
        Option.isNone_none, Bool.true_or, if_true, mapUpdate_same]
      refine ⟨?_, ?_, fun hg => ?_, fun hg => ?_⟩
      · split <;> exact mapUpdate_same _ _ _
      · split <;> rfl
      · rw [if_pos hg]
        exact mapUpdate_same _ _ _
      · rw [if_neg (by simp [hg])]
        exact mapUpdate_same _ _ _
  · simp only [padPress, getActiveConfig, ha, hnone, Option.isNone_none, Bool.true_or,
      if_true, mapUpdate_same]
    refine ⟨?_, ?_, fun hg => ?_, fun hg => ?_⟩
    · split <;> exact mapUpdate_same _ _ _
    · split <;> rfl
    · rw [if_pos hg]
      exact mapUpdate_same _ _ _
    · rw [if_neg (by simp [hg])]
      exact mapUpdate_same _ _ _

/-- Witness for `pad_press_unassigned`: pressing pad 0 (key 36) from the empty
initial state writes the active configuration into pad 0's entry, activates
pad 0, and — the spawned default entity being momentary — keys it by the fresh
id 1001. -/
theorem pad_press_unassigned_witness :
    (initState (fun _ => none)).assignments (36 - 36) = none
      ∧ (handle (initState (fun _ => none)) (Midi.noteOn 36 100)).assignments (36 - 36)
          = some (getActiveConfig (initState (fun _ => none))).1
      ∧ (handle (initState (fun _ => none)) (Midi.noteOn 36 100)).active_config = 36 - 36
      ∧ (Entity.new (getActiveConfig (initState (fun _ => none))).1
            (initState (fun _ => none)).tick ((36 - 36) % 8) ((36 - 36) / 8)).gated = false
      ∧ (handle (initState (fun _ => none)) (Midi.noteOn 36 100)).entities
            ((initState (fun _ => none)).fresh_entity_id + 1)
          = some (Entity.new (getActiveConfig (initState (fun _ => none))).1
              (initState (fun _ => none)).tick ((36 - 36) % 8) ((36 - 36) / 8)) :=
  ⟨rfl,
    (pad_press_unassigned (initState (fun _ => none)) 36 100 (by decide) (by decide) rfl).1,
    (pad_press_unassigned (initState (fun _ => none)) 36 100 (by decide) (by decide) rfl).2.1,
    by decide,
    (pad_press_unassigned (initState (fun _ => none)) 36 100 (by decide) (by decide) rfl).2.2.2
      (by decide)⟩

end Push2
